import Mathlib

/-!
Verification of `sqlitexx.h` (rymis/smallxx), a header-only C++ wrapper around
the sqlite3 engine.

The wrapper delegates all database work to the engine, so the engine is
modelled abstractly, following the interface the wrapper consumes
(`sqlite3_step`, `sqlite3_column_*`, `sqlite3_bind_parameter_index`,
statement execution for `COMMIT` / `ROLLBACK`):

* a prepared statement's remaining behaviour is the finite list of outcomes
  its successive `sqlite3_step` calls produce (a row, `SQLITE_DONE`, or an
  error code);
* a result cell is its storage class together with the byte buffer
  `sqlite3_column_text` would return (`none` models a NULL data pointer);
  `sqlite3_column_bytes` reports the buffer's exact length for Text/Blob;
* the engine's responses to the successive `COMMIT` statements a
  `Transaction` issues are an oracle list of result codes.

C++ exceptions are modelled with `Except` / explicit outcome types; machine
integers that matter (the `(int)idx` cast in `Statement::operator[]`) are
modelled on `Int` with the two's-complement reduction made explicit.
-/

namespace Sqlitexx

/-- Engine result code `SQLITE_OK = 0`. -/
def SQLITE_OK : Int := 0

/-- Engine result code `SQLITE_ERROR = 1`. -/
def SQLITE_ERROR : Int := 1

/-- Engine result code `SQLITE_BUSY = 5`. -/
def SQLITE_BUSY : Int := 5

/-- Engine result code `SQLITE_MISUSE = 21` (returned, in particular, when an
API call is made on a NULL connection handle: `sqlite3SafetyCheckOk` rejects a
NULL `sqlite3*` before the engine touches any database). -/
def SQLITE_MISUSE : Int := 21

/-- Storage classes reported by `sqlite3_column_type`. -/
inductive Kind where
  | integer
  | float
  | text
  | blob
  | null
deriving DecidableEq, Repr

/-- One result cell, as the wrapper sees it through the engine interface:
`kind` is what `sqlite3_column_type` reports, `data` is the buffer returned by
`sqlite3_column_text` (`none` models a NULL pointer; `some bs` the pointed-to
bytes, excluding the terminating zero the engine appends). For Text/Blob
cells `sqlite3_column_bytes` reports exactly `bs.length`. -/
structure Cell where
  kind : Kind
  data : Option (List Nat)
deriving DecidableEq, Repr

/-- `sqlite3_column_bytes` for a cell: the exact byte length of its buffer. -/
def Cell.columnBytes (c : Cell) : Nat := (c.data.getD []).length

/-- Reading a C string: `std::string{data}` takes bytes up to (excluding) the
first zero byte. -/
def ntString (bs : List Nat) : List Nat := bs.takeWhile (· ≠ 0)

/-- `Statement::Value::as_text` (sqlitexx.h lines 176-187):
`data = sqlite3_column_text(...)`; a NULL pointer yields `""`; for Text/Blob
kinds the result is `std::string{data, len}` with `len = sqlite3_column_bytes`
(byte-exact, embedded zeros preserved); otherwise `std::string{data}`
(up to the first zero byte). -/
def as_text (c : Cell) : List Nat :=
  match c.data with
  | none => []
  | some bs => if c.kind = Kind.text ∨ c.kind = Kind.blob then bs else ntString bs

/-- One positioned result row: its cells in column order. -/
structure Row where
  cells : List Cell
deriving DecidableEq, Repr

/-- Outcome of one `sqlite3_step` call on a prepared statement. -/
inductive StepOutcome where
  | row (r : Row)
  | done
  | err (code : Int)
deriving DecidableEq, Repr

/-- A prepared statement handle: its declared column count
(`sqlite3_column_count`), the outcomes its remaining `sqlite3_step` calls
produce, and the currently positioned row (`none` before the first step and
after completion). -/
structure StmtHandle where
  colCount : Nat
  outcomes : List StepOutcome
  current : Option Row
deriving DecidableEq, Repr

/-- `Statement::step` (sqlitexx.h lines 232-242) driven to exhaustion:
call `step()` repeatedly and record the positioned row after each `true`
result, stopping at the first `false` (`SQLITE_DONE`); any other engine
result throws `Error(res)`, modelled as `.error res`. Each call consumes the
head of the outcome list; an exhausted oracle is reported as
`SQLITE_MISUSE` (stepping a finished statement). -/
def stepRowsGo : List StepOutcome → Except Int (List Row)
  | [] => Except.error SQLITE_MISUSE
  | StepOutcome.row r :: rest => (stepRowsGo rest).map (fun rs => r :: rs)
  | StepOutcome.done :: _ => Except.ok []
  | StepOutcome.err c :: _ => Except.error c

/-- The row sequence obtained from `step()` alone: rows read after each
`true` result of `Statement::step`, in order. -/
def stepRows (s : StmtHandle) : Except Int (List Row) := stepRowsGo s.outcomes

/-- The range-for over `Statement` (sqlitexx.h lines 244-280), desugared:
`it = begin()` has `the_end = false`, `end()` has `the_end = true`, and
`operator==` is `it.the_end && the_end`, so the loop body runs once *before*
any `step()` call, observing the current (initially unpositioned) state;
`operator++` then calls `step()` and sets `the_end` when it returns `false`.
`cur` is the row the body observes at each iteration (`none` = no row
positioned). -/
def iterRowsGo : Option Row → List StepOutcome → Except Int (List (Option Row))
  | _, [] => Except.error SQLITE_MISUSE
  | cur, StepOutcome.row r :: rest => (iterRowsGo (some r) rest).map (fun rs => cur :: rs)
  | cur, StepOutcome.done :: _ => Except.ok [cur]
  | _, StepOutcome.err c :: _ => Except.error c

/-- The sequence of row views the range/iterator interface yields. -/
def iterRows (s : StmtHandle) : Except Int (List (Option Row)) :=
  iterRowsGo s.current s.outcomes

/-- `sqlite3_column_text(stmt, 0)` on a positioned row: the buffer of the
row's column 0. -/
def column_text0 (r : Row) : Option (List Nat) :=
  (r.cells.getD 0 ⟨Kind.null, none⟩).data

/-- `Statement::exec` (sqlitexx.h lines 113-133): one `sqlite3_step`;
`SQLITE_DONE` yields `""`; `SQLITE_ROW` yields, when `sqlite3_column_count`
is non-zero, `std::string{data}` of `sqlite3_column_text(stmt, 0)` — a
null-terminated read, `""` on a NULL pointer — and `""` when the column
count is zero; any other result throws `Error(res, "execution failed")`. -/
def Statement.exec (s : StmtHandle) : Except Int (List Nat) × StmtHandle :=
  match s.outcomes with
  | [] => (Except.error SQLITE_MISUSE, s)
  | StepOutcome.done :: rest => (Except.ok [], ⟨s.colCount, rest, none⟩)
  | StepOutcome.row r :: rest =>
      (Except.ok
        (if s.colCount ≠ 0 then
          match column_text0 r with
          | none => []
          | some bs => ntString bs
        else []),
       ⟨s.colCount, rest, some r⟩)
  | StepOutcome.err c :: rest => (Except.error c, ⟨s.colCount, rest, none⟩)

lemma ntString_ne_of_zero_mem (bs : List Nat) (h : 0 ∈ bs) : ntString bs ≠ bs := by
  intro heq
  have h0 : (0 : Nat) ∈ bs.takeWhile (fun b => b ≠ 0) := by
    rw [show bs.takeWhile (fun b => b ≠ 0) = bs from heq]
    exact h
  have := List.mem_takeWhile_imp h0
  simp at this

lemma iterRowsGo_eq_stepRowsGo (cur : Option Row) (l : List StepOutcome) :
    iterRowsGo cur l = (stepRowsGo l).map (fun rs => cur :: rs.map some) := by
  induction l generalizing cur with
  | nil => rfl
  | cons o rest ih =>
    cases o with
    | row r =>
      simp only [iterRowsGo, stepRowsGo, ih (some r)]
      cases stepRowsGo rest <;> rfl
    | done => rfl
    | err c => rfl

/-- C1: the claim states that iterating a `Statement` with the range/iterator
interface yields exactly the positioned rows that repeated `step()` calls
yield, ending when `step()` first returns `false`. The code diverges:
`begin()` never calls `step()`, and `begin() != end()` holds immediately, so
the loop body always runs one extra time, first observing the statement
*before* any row is positioned. Concretely, a statement whose single step
returns `SQLITE_DONE` (zero result rows) yields `[]` under `step()` but one
body execution (observing no positioned row) under iteration; a one-row
statement yields that row once under `step()` but two body executions under
iteration. In general the iterator sequence is the `step()` sequence with one
spurious leading element prepended. -/
theorem c1_iterator_leading_element :
    stepRows ⟨1, [StepOutcome.done], none⟩ = Except.ok []
    ∧ iterRows ⟨1, [StepOutcome.done], none⟩ = Except.ok [none]
    ∧ stepRows ⟨1, [StepOutcome.row ⟨[⟨Kind.integer, some [49]⟩]⟩, StepOutcome.done], none⟩
        = Except.ok [⟨[⟨Kind.integer, some [49]⟩]⟩]
    ∧ iterRows ⟨1, [StepOutcome.row ⟨[⟨Kind.integer, some [49]⟩]⟩, StepOutcome.done], none⟩
        = Except.ok [none, some ⟨[⟨Kind.integer, some [49]⟩]⟩]
    ∧ ∀ s : StmtHandle,
        iterRows s = (stepRows s).map (fun rs => s.current :: rs.map some) := by
  refine ⟨rfl, rfl, rfl, rfl, ?_⟩
  intro s
  exact iterRowsGo_eq_stepRowsGo s.current s.outcomes

/-- C8: `exec()` advances execution exactly once (consuming exactly one step
outcome): on `SQLITE_DONE` it returns empty text; on `SQLITE_ROW` it returns
the decoded (null-terminated) text of column 0 only, empty when the column
count is zero or the data pointer is NULL; on any other engine result it
throws `Error` carrying that code. -/
theorem c8_exec_single_advance (cc : Nat) (cur : Option Row) (rest : List StepOutcome) :
    (Statement.exec ⟨cc, StepOutcome.done :: rest, cur⟩
        = (Except.ok [], ⟨cc, rest, none⟩))
    ∧ (∀ r : Row, cc = 0 →
        Statement.exec ⟨cc, StepOutcome.row r :: rest, cur⟩
          = (Except.ok [], ⟨cc, rest, some r⟩))
    ∧ (∀ r : Row, cc ≠ 0 → column_text0 r = none →
        Statement.exec ⟨cc, StepOutcome.row r :: rest, cur⟩
          = (Except.ok [], ⟨cc, rest, some r⟩))
    ∧ (∀ (r : Row) (bs : List Nat), cc ≠ 0 → column_text0 r = some bs →
        Statement.exec ⟨cc, StepOutcome.row r :: rest, cur⟩
          = (Except.ok (ntString bs), ⟨cc, rest, some r⟩))
    ∧ (∀ c : Int,
        Statement.exec ⟨cc, StepOutcome.err c :: rest, cur⟩
          = (Except.error c, ⟨cc, rest, none⟩)) := by
  refine ⟨rfl, ?_, ?_, ?_, fun c => rfl⟩
  · intro r h0
    simp [Statement.exec, h0]
  · intro r hcc hnone
    simp [Statement.exec, hcc, hnone]
  · intro r bs hcc hsome
    simp [Statement.exec, hcc, hsome]

theorem c8_exec_single_advance_witness :
    Statement.exec ⟨1, [StepOutcome.row ⟨[⟨Kind.text, some [104, 105]⟩]⟩, StepOutcome.done], none⟩
      = (Except.ok [104, 105],
         ⟨1, [StepOutcome.done], some ⟨[⟨Kind.text, some [104, 105]⟩]⟩⟩) := by
  have h := (c8_exec_single_advance 1 none [StepOutcome.done]).2.2.2.1
      ⟨[⟨Kind.text, some [104, 105]⟩]⟩ [104, 105] (by decide) rfl
  exact h

/-- C10: when column 0 of the current row is a Text or Blob cell whose bytes
contain an embedded zero, `exec()` returns only the bytes before the first
zero (it decodes column 0 with the null-terminated `std::string{data}`
constructor), strictly shorter than the cell's content, while
`Value::as_text` on the same cell returns the full byte-exact content. -/
theorem c10_exec_truncates_as_text_exact (cc : Nat) (cur : Option Row)
    (rest : List StepOutcome) (k : Kind) (bs : List Nat) (cs : List Cell)
    (hcc : cc ≠ 0) (hk : k = Kind.text ∨ k = Kind.blob) (hz : 0 ∈ bs) :
    (Statement.exec ⟨cc, StepOutcome.row ⟨⟨k, some bs⟩ :: cs⟩ :: rest, cur⟩).1
        = Except.ok (ntString bs)
    ∧ as_text ⟨k, some bs⟩ = bs
    ∧ ntString bs ≠ bs := by
  refine ⟨?_, ?_, ntString_ne_of_zero_mem bs hz⟩
  · simp [Statement.exec, column_text0, hcc, List.getD]
  · simp [as_text, hk]

theorem c10_exec_truncates_as_text_exact_witness :
    (Statement.exec ⟨1, [StepOutcome.row ⟨[⟨Kind.text, some [97, 0, 98]⟩]⟩], none⟩).1
        = Except.ok [97]
    ∧ as_text ⟨Kind.text, some [97, 0, 98]⟩ = [97, 0, 98]
    ∧ ntString [97, 0, 98] ≠ [97, 0, 98] := by
  have h := c10_exec_truncates_as_text_exact 1 none [] Kind.text [97, 0, 98] []
      (by decide) (Or.inl rfl) (by decide)
  exact ⟨h.1, h.2.1, h.2.2⟩

/-- The state a `Transaction` object carries (sqlitexx.h lines 286-287):
`db` models `db_ != nullptr` and `done` models `done_`. -/
structure Transaction where
  db : Bool
  done : Bool
deriving DecidableEq, Repr

/-- How a `try_commit` call finishes: it returned a boolean, it threw
`Error(code, "commit failed")`, or the engine answered `SQLITE_BUSY` for
every response the oracle holds, so the `for (;;)` loop is still retrying
(an unbounded busy engine makes the loop spin forever). -/
inductive TCOutcome where
  | ret (b : Bool)
  | thrown (code : Int)
  | engineHung
deriving DecidableEq, Repr

/-- Everything observable about one `try_commit` call: how it finished, the
`Transaction` state afterwards, the engine responses left unconsumed, and how
many `COMMIT` commands were delivered to the engine's database. -/
structure TCRun where
  outcome : TCOutcome
  state : Transaction
  rest : List Int
  issued : Nat
deriving DecidableEq, Repr

/-- The `for (;;)` loop of `Transaction::try_commit` (sqlitexx.h lines
307-323) on a live connection: each iteration delivers one `COMMIT` via
`exec("COMMIT;")` and consumes the next oracle response. `SQLITE_OK` sets
`done_ = true` and returns `true`; `SQLITE_BUSY` loops; any other code
throws `Error(res, "commit failed")` when `exc` and returns `false`
otherwise (`done_` untouched in both non-OK cases). -/
def try_commitGo (exc : Bool) (t : Transaction) : List Int → Nat → TCRun
  | [], n => ⟨TCOutcome.engineHung, t, [], n⟩
  | r :: rest, n =>
    if r = SQLITE_OK then ⟨TCOutcome.ret true, ⟨t.db, true⟩, rest, n + 1⟩
    else if r = SQLITE_BUSY then try_commitGo exc t rest (n + 1)
    else if exc then ⟨TCOutcome.thrown r, t, rest, n + 1⟩
    else ⟨TCOutcome.ret false, t, rest, n + 1⟩

/-- `Transaction::try_commit(bool exc)` (sqlitexx.h lines 307-323).
When `db_` is a NULL pointer (moved-from object), `exec("COMMIT;")` calls
`sqlite3_prepare_v2` on a NULL connection, which the engine rejects with
`SQLITE_MISUSE` before any command reaches a database: the loop then throws
(`exc`) or returns `false` at once, consuming no oracle response and issuing
no command. Otherwise the retry loop above runs. -/
def try_commit (exc : Bool) (t : Transaction) (resp : List Int) : TCRun :=
  if t.db then try_commitGo exc t resp 0
  else if exc then ⟨TCOutcome.thrown SQLITE_MISUSE, t, resp, 0⟩
  else ⟨TCOutcome.ret false, t, resp, 0⟩

/-- `Transaction::commit` (sqlitexx.h lines 364-366): `try_commit(true)`. -/
def Transaction.commit (t : Transaction) (resp : List Int) : TCRun :=
  try_commit true t resp

/-- `Transaction::~Transaction` (sqlitexx.h lines 360-362):
`try_commit(false)`, run unconditionally — the destructor does not consult
`done_` before calling it. -/
def Transaction.destruct (t : Transaction) (resp : List Int) : TCRun :=
  try_commit false t resp

/-- Everything observable about one `Transaction::rollback` call:
`thrownCode` is `some res` when `Error(res, "rollback failed")` was thrown,
`state` the object afterwards, `issued` the number of `ROLLBACK` commands
delivered to the engine's database. -/
structure RBRun where
  thrownCode : Option Int
  state : Transaction
  issued : Nat
deriving DecidableEq, Repr

/-- `Transaction::rollback` (sqlitexx.h lines 368-374): one
`exec("ROLLBACK;")` — never retried — whose engine response is `resp`; a
non-OK response throws before `done_ = true` is reached, so `done_` changes
only on success. On a NULL `db_` the engine rejects the call with
`SQLITE_MISUSE` before any command is executed. -/
def Transaction.rollback (t : Transaction) (resp : Int) : RBRun :=
  if t.db then
    if resp = SQLITE_OK then ⟨none, ⟨t.db, true⟩, 1⟩
    else ⟨some resp, t, 1⟩
  else ⟨some SQLITE_MISUSE, t, 0⟩

/-- The move constructor `Transaction(Transaction&& t)` (sqlitexx.h lines
329-338): the members of the object under construction start at their
default initializers (`db_ = nullptr`, `done_ = false`), so the
`if (db_ && !done_) commit();` guard never fires; the fields are copied from
`t` and `t.db_` is set to `nullptr` (`t.done_` is left as it was). Returns
(destination, source-after-move). -/
def Transaction.moveCtor (t : Transaction) : Transaction × Transaction :=
  (⟨t.db, t.done⟩, ⟨false, t.done⟩)

/-- How a move assignment finishes: the transfer completed (destination and
source-after-move), the guard's `commit()` threw, or that commit hung on an
endlessly busy engine. -/
inductive MoveOut where
  | moved (dest src : Transaction)
  | thrown (code : Int)
  | engineHung
deriving DecidableEq, Repr

/-- The move assignment `operator=(Transaction&& t)` (sqlitexx.h lines
340-351) with `u` the assigned-to object: if `u.db_ && !u.done_`, `commit()`
runs first (and may throw, aborting the transfer); then `u`'s fields are
copied from `t` and `t.db_` is set to `nullptr`. Also returns the oracle
responses left and the number of `COMMIT` commands issued. -/
def Transaction.moveAssign (u t : Transaction) (resp : List Int) :
    MoveOut × List Int × Nat :=
  if u.db ∧ ¬u.done then
    match Transaction.commit u resp with
    | ⟨TCOutcome.thrown c, _, rest, n⟩ => (MoveOut.thrown c, rest, n)
    | ⟨TCOutcome.engineHung, _, rest, n⟩ => (MoveOut.engineHung, rest, n)
    | ⟨TCOutcome.ret _, _, rest, n⟩ =>
        (MoveOut.moved ⟨t.db, t.done⟩ ⟨false, t.done⟩, rest, n)
  else (MoveOut.moved ⟨t.db, t.done⟩ ⟨false, t.done⟩, resp, 0)

lemma try_commitGo_busy_prefix (exc : Bool) (t : Transaction) (p l : List Int) (n : Nat)
    (hp : ∀ x ∈ p, x = SQLITE_BUSY) :
    try_commitGo exc t (p ++ l) n = try_commitGo exc t l (n + p.length) := by
  induction p generalizing n with
  | nil => simp
  | cons x p ih =>
    have hx : x = SQLITE_BUSY := hp x (List.mem_cons_self x p)
    have hrest : ∀ y ∈ p, y = SQLITE_BUSY := fun y hy => hp y (List.mem_cons_of_mem x hy)
    subst hx
    rw [List.cons_append, try_commitGo,
        if_neg (by decide : ¬(SQLITE_BUSY = SQLITE_OK)), if_pos rfl, ih (n + 1) hrest]
    congr 1
    simp
    omega

lemma try_commitGo_no_throw (t : Transaction) (l : List Int) (n : Nat) (c : Int) :
    (try_commitGo false t l n).outcome ≠ TCOutcome.thrown c := by
  induction l generalizing n with
  | nil => simp [try_commitGo]
  | cons r rest ih =>
    rw [try_commitGo]
    by_cases h0 : r = SQLITE_OK
    · simp [h0]
    · by_cases hb : r = SQLITE_BUSY
      · simpa [h0, hb] using ih (n + 1)
      · simp [h0, hb]

lemma destruct_null_db (d : Bool) (resp : List Int) :
    Transaction.destruct ⟨false, d⟩ resp = ⟨TCOutcome.ret false, ⟨false, d⟩, resp, 0⟩ := by
  simp [Transaction.destruct, try_commit]

lemma moveAssign_moved {u t : Transaction} {resp : List Int} {dest src : Transaction}
    {rest : List Int} {n : Nat}
    (h : Transaction.moveAssign u t resp = (MoveOut.moved dest src, rest, n)) :
    dest = ⟨t.db, t.done⟩ ∧ src = ⟨false, t.done⟩ := by
  by_cases hc : u.db ∧ ¬u.done
  · rw [Transaction.moveAssign, if_pos hc] at h
    rcases hW : Transaction.commit u resp with ⟨o, st, rst, m⟩
    rw [hW] at h
    cases o with
    | thrown c => simp at h
    | engineHung => simp at h
    | ret b =>
      simp only [Prod.mk.injEq, MoveOut.moved.injEq] at h
      exact ⟨h.1.1.symm, h.1.2.symm⟩
  · rw [Transaction.moveAssign, if_neg hc] at h
    simp only [Prod.mk.injEq, MoveOut.moved.injEq] at h
    exact ⟨h.1.1.symm, h.1.2.symm⟩

/-- C2: for a still-Active `Transaction` (live connection, `done_ = false`),
`commit()` re-issues `COMMIT` through any run of `SQLITE_BUSY` responses
(issuing one command per response) and, at the first non-busy response,
returns successfully on `SQLITE_OK` (marking the transaction done) or throws
`Error` carrying the engine's code on anything else; the destructor runs the
identical busy-retry loop, marking done on `SQLITE_OK`, but returns `false`
instead of throwing on a non-retryable failure — it never throws at all. -/
theorem c2_commit_raises_destruct_swallows (t : Transaction) (p rest : List Int) (r : Int)
    (hdb : t.db = true) (_hdone : t.done = false)
    (hp : ∀ x ∈ p, x = SQLITE_BUSY) (hr : r ≠ SQLITE_BUSY) :
    (r = SQLITE_OK →
       Transaction.commit t (p ++ r :: rest)
           = ⟨TCOutcome.ret true, ⟨true, true⟩, rest, p.length + 1⟩
       ∧ Transaction.destruct t (p ++ r :: rest)
           = ⟨TCOutcome.ret true, ⟨true, true⟩, rest, p.length + 1⟩)
    ∧ (r ≠ SQLITE_OK →
       Transaction.commit t (p ++ r :: rest)
           = ⟨TCOutcome.thrown r, t, rest, p.length + 1⟩
       ∧ Transaction.destruct t (p ++ r :: rest)
           = ⟨TCOutcome.ret false, t, rest, p.length + 1⟩)
    ∧ (∀ (l : List Int) (c : Int),
        (Transaction.destruct t l).outcome ≠ TCOutcome.thrown c) := by
  have hcommit : ∀ exc : Bool, try_commit exc t (p ++ r :: rest)
      = try_commitGo exc t (r :: rest) p.length := by
    intro exc
    rw [try_commit, if_pos hdb, try_commitGo_busy_prefix exc t p (r :: rest) 0 hp]
    simp
  refine ⟨?_, ?_, ?_⟩
  · intro hOK
    subst hOK
    constructor
    · rw [Transaction.commit, hcommit true, try_commitGo, if_pos rfl, hdb]
    · rw [Transaction.destruct, hcommit false, try_commitGo, if_pos rfl, hdb]
  · intro hne
    constructor
    · rw [Transaction.commit, hcommit true, try_commitGo, if_neg hne, if_neg hr, if_pos rfl]
    · rw [Transaction.destruct, hcommit false, try_commitGo, if_neg hne, if_neg hr]
      simp
  · intro l c
    rw [Transaction.destruct, try_commit, if_pos hdb]
    exact try_commitGo_no_throw t l 0 c

theorem c2_commit_raises_destruct_swallows_witness :
    Transaction.commit ⟨true, false⟩ [SQLITE_BUSY, SQLITE_BUSY, SQLITE_ERROR]
        = ⟨TCOutcome.thrown SQLITE_ERROR, ⟨true, false⟩, [], 3⟩
    ∧ Transaction.destruct ⟨true, false⟩ [SQLITE_BUSY, SQLITE_BUSY, SQLITE_ERROR]
        = ⟨TCOutcome.ret false, ⟨true, false⟩, [], 3⟩ := by
  have h := (c2_commit_raises_destruct_swallows ⟨true, false⟩ [SQLITE_BUSY, SQLITE_BUSY] []
      SQLITE_ERROR rfl rfl (by decide) (by decide)).2.1 (by decide)
  exact h

/-- C3: a `Transaction` that was the source of a move (constructor or
assignment) has its connection pointer nulled; destroying it afterwards
issues zero commands to the engine's database, consumes no engine response,
changes no state, and throws nothing (the engine rejects the NULL handle
before any command is executed), while the destination inherits the source's
pre-move fields and with them the obligation to resolve the transaction. -/
theorem c3_moved_from_source_disarmed (t u : Transaction) (resp resp2 : List Int) :
    ((Transaction.moveCtor t).2.db = false
    ∧ Transaction.destruct (Transaction.moveCtor t).2 resp
        = ⟨TCOutcome.ret false, (Transaction.moveCtor t).2, resp, 0⟩
    ∧ (Transaction.moveCtor t).1 = ⟨t.db, t.done⟩)
    ∧ (∀ (dest src : Transaction) (rest : List Int) (n : Nat),
        Transaction.moveAssign u t resp2 = (MoveOut.moved dest src, rest, n) →
        src.db = false
        ∧ dest = ⟨t.db, t.done⟩
        ∧ Transaction.destruct src resp = ⟨TCOutcome.ret false, src, resp, 0⟩) := by
  refine ⟨⟨rfl, destruct_null_db t.done resp, rfl⟩, ?_⟩
  intro dest src rest n h
  obtain ⟨hd, hs⟩ := moveAssign_moved h
  subst hd
  subst hs
  exact ⟨rfl, rfl, destruct_null_db t.done resp⟩

theorem c3_moved_from_source_disarmed_witness :
    ((⟨false, false⟩ : Transaction)).db = false
    ∧ Transaction.destruct ⟨false, false⟩ [SQLITE_ERROR]
        = ⟨TCOutcome.ret false, ⟨false, false⟩, [SQLITE_ERROR], 0⟩ := by
  have h := (c3_moved_from_source_disarmed ⟨true, false⟩ ⟨false, false⟩ [SQLITE_ERROR] []).2
      ⟨true, false⟩ ⟨false, false⟩ [] 0 (by decide)
  exact ⟨h.1, h.2.2⟩

/-- C5 counterexample to the claim as stated: with the engine answering
`SQLITE_BUSY` to the single ROLLBACK, `rollback()` throws and `done_` is
still `false` — the Transaction did *not* transition to Resolved, because
the throw happens before `done_ = true`. -/
theorem c5_counterexample :
    Transaction.rollback ⟨true, false⟩ SQLITE_BUSY
        = ⟨some SQLITE_BUSY, ⟨true, false⟩, 1⟩
    ∧ (Transaction.rollback ⟨true, false⟩ SQLITE_BUSY).state.done = false := by
  exact ⟨by decide, by decide⟩

/-- C5 (amended): on a live connection `rollback()` issues ROLLBACK exactly
once — never retried, even on a busy result — throws `Error` carrying the
engine code on any non-OK result, and transitions to Resolved only on
success: a non-OK result throws before `done_ = true`, leaving the state
unchanged. -/
theorem c5_rollback_once_resolved_on_success (t : Transaction) (r : Int) (hdb : t.db = true) :
    (Transaction.rollback t r).issued = 1
    ∧ (r = SQLITE_OK → Transaction.rollback t r = ⟨none, ⟨true, true⟩, 1⟩)
    ∧ (r ≠ SQLITE_OK → Transaction.rollback t r = ⟨some r, t, 1⟩) := by
  refine ⟨?_, ?_, ?_⟩
  · by_cases h : r = SQLITE_OK <;> simp [Transaction.rollback, hdb, h]
  · intro h
    simp [Transaction.rollback, hdb, h]
  · intro h
    simp [Transaction.rollback, hdb, h]

theorem c5_rollback_once_resolved_on_success_witness :
    (Transaction.rollback ⟨true, false⟩ SQLITE_BUSY).issued = 1
    ∧ Transaction.rollback ⟨true, false⟩ SQLITE_BUSY
        = ⟨some SQLITE_BUSY, ⟨true, false⟩, 1⟩ := by
  have h := c5_rollback_once_resolved_on_success ⟨true, false⟩ SQLITE_BUSY rfl
  exact ⟨h.1, h.2.2 (by decide)⟩

/-- C9: a `Transaction` resolved by a successful `commit()` or `rollback()`
keeps `db_` non-null and `done_ = true`, and its destructor still calls
`try_commit(false)` unconditionally — neither consults `done_` — so
destruction delivers one further COMMIT to the engine; the engine, having no
active transaction, answers with a non-busy error, which the destructor
swallows (returns `false`, no retry, no throw). Destruction of a resolved
transaction is therefore not a no-op. -/
theorem c9_destruct_after_resolution_issues_commit (e : Int) (rest l : List Int)
    (he0 : e ≠ SQLITE_OK) (heb : e ≠ SQLITE_BUSY) :
    (Transaction.commit ⟨true, false⟩ (SQLITE_OK :: l)).state = ⟨true, true⟩
    ∧ (Transaction.rollback ⟨true, false⟩ SQLITE_OK).state = ⟨true, true⟩
    ∧ Transaction.destruct ⟨true, true⟩ (e :: rest)
        = ⟨TCOutcome.ret false, ⟨true, true⟩, rest, 1⟩ := by
  refine ⟨rfl, rfl, ?_⟩
  rw [Transaction.destruct, try_commit, if_pos rfl, try_commitGo, if_neg he0, if_neg heb]
  simp

theorem c9_destruct_after_resolution_issues_commit_witness :
    (Transaction.commit ⟨true, false⟩ [SQLITE_OK]).state = ⟨true, true⟩
    ∧ (Transaction.rollback ⟨true, false⟩ SQLITE_OK).state = ⟨true, true⟩
    ∧ Transaction.destruct ⟨true, true⟩ [SQLITE_ERROR]
        = ⟨TCOutcome.ret false, ⟨true, true⟩, [], 1⟩ :=
  c9_destruct_after_resolution_issues_commit SQLITE_ERROR [] [] (by decide) (by decide)

/-- The two's-complement reinterpretation `(int)idx` of a 32-bit unsigned
value, as performed by the cast in `Statement::operator[]`. -/
def int32ofU32 (idx : Nat) : Int :=
  if idx < 2 ^ 31 then (idx : Int) else (idx : Int) - 2 ^ 32

/-- What `Statement::operator[]` reads: whether `stmt_` is a NULL handle
(e.g. moved-from), the engine's `sqlite3_column_count`, and — for comparison
with the spec — whether a row is currently positioned. The last field is
*not* consulted by the code. -/
structure StmtView where
  handleNull : Bool
  colCount : Int
  rowPositioned : Bool
deriving DecidableEq, Repr

/-- Result of a column access: a `Value` accessor over the given index, or a
thrown `Error`. -/
inductive IdxResult where
  | value (idx : Nat)
  | thrown (code : Int)
deriving DecidableEq, Repr

/-- `Statement::operator[]` (sqlitexx.h lines 220-226): throws
`Error(SQLITE_ERROR, "column index ... is out of range")` when `!stmt_` or
`(int)idx >= sqlite3_column_count(stmt_.get())`; otherwise returns
`Value(stmt_.get(), idx)`. The guard inspects the handle, never whether a
row is positioned. -/
def columnAt (s : StmtView) (idx : Nat) : IdxResult :=
  if s.handleNull ∨ int32ofU32 idx ≥ s.colCount then IdxResult.thrown SQLITE_ERROR
  else IdxResult.value idx

/-- C4 counterexample to the claim as stated: a statement with a live handle
and one declared column but *no currently positioned row* — column access at
index 0 succeeds and returns a `Value` accessor instead of the `IndexError`
the claim requires. -/
theorem c4_counterexample :
    columnAt ⟨false, 1, false⟩ 0 = IdxResult.value 0
    ∧ ∀ c : Int, columnAt ⟨false, 1, false⟩ 0 ≠ IdxResult.thrown c := by
  refine ⟨by decide, fun c => ?_⟩
  rw [show columnAt ⟨false, 1, false⟩ 0 = IdxResult.value 0 from by decide]
  simp

/-- C4 (amended): column access throws `Error` exactly when the statement
handle is NULL (then for every index) or the index, reinterpreted as a
signed 32-bit integer, is at least the declared column count; whether a row
is positioned is never consulted (the result is identical for either value
of that flag); and the index equal to `columnCount()` always fails. -/
theorem c4_index_error_guard (cc : Int) (rp rpo : Bool) (idx : Nat)
    (hcc : 0 ≤ cc) (hlt : cc < 2 ^ 31) (hidx : idx < 2 ^ 31) :
    (∀ j : Nat, columnAt ⟨true, cc, rp⟩ j = IdxResult.thrown SQLITE_ERROR)
    ∧ columnAt ⟨false, cc, rp⟩ idx = columnAt ⟨false, cc, rpo⟩ idx
    ∧ (columnAt ⟨false, cc, rp⟩ idx = IdxResult.thrown SQLITE_ERROR ↔ (idx : Int) ≥ cc)
    ∧ columnAt ⟨false, cc, rp⟩ cc.toNat = IdxResult.thrown SQLITE_ERROR := by
  refine ⟨fun j => by simp [columnAt], rfl, ?_, ?_⟩
  · rw [columnAt]
    by_cases h : (idx : Int) ≥ cc
    · rw [if_pos (Or.inr (by rwa [int32ofU32, if_pos hidx]))]
      simp [h]
    · rw [if_neg ?_]
      · simp [h]
      · rintro (hf | hge)
        · simp at hf
        · rw [int32ofU32, if_pos hidx] at hge
          exact h hge
  · rw [columnAt, if_pos]
    right
    rw [int32ofU32, if_pos (by omega), Int.toNat_of_nonneg hcc]

theorem c4_index_error_guard_witness :
    columnAt ⟨true, 1, false⟩ 0 = IdxResult.thrown SQLITE_ERROR
    ∧ columnAt ⟨false, 1, false⟩ 1 = columnAt ⟨false, 1, true⟩ 1
    ∧ (columnAt ⟨false, 1, false⟩ 1 = IdxResult.thrown SQLITE_ERROR ↔ ((1 : Nat) : Int) ≥ 1)
    ∧ columnAt ⟨false, 1, false⟩ (1 : Int).toNat = IdxResult.thrown SQLITE_ERROR := by
  have h := c4_index_error_guard 1 false true 1 (by decide) (by decide) (by decide)
  exact ⟨h.1 0, h.2.1, h.2.2.1, h.2.2.2⟩

/-- A prepared statement as the named-`bind` overload sees it: the engine's
table mapping parameter names (with their sigil) to 1-based positions, and
the bindings applied so far (most recent first). `α` is the template
parameter `T` of the bound value. -/
structure NamedStmt (α : Type) where
  names : List (String × Nat)
  bound : List (Nat × α)
deriving DecidableEq, Repr

/-- `sqlite3_bind_parameter_index`: the position of a named parameter, `0`
when the name does not occur in the statement. -/
def bind_parameter_index {α : Type} (s : NamedStmt α) (name : String) : Nat :=
  (s.names.lookup name).getD 0

/-- The named-parameter overload `Statement::bind(const std::string&, T&&)`
(sqlitexx.h lines 102-110): resolve the name; when the engine reports `0`,
throw `Error(SQLITE_ERROR, "unknown parameter name ...")` before any `bind`
call, leaving the bindings untouched; otherwise delegate to the positional
`bind` at the resolved position, which records the binding. Returns the
thrown code, if any, together with the statement afterwards. -/
def bindNamed {α : Type} (s : NamedStmt α) (name : String) (v : α) :
    Option Int × NamedStmt α :=
  let n := bind_parameter_index s name
  if n = 0 then (some SQLITE_ERROR, s)
  else (none, ⟨s.names, (n, v) :: s.bound⟩)

/-- C6: `bind(name, value)` with a name the engine does not resolve (lookup
yields nothing, i.e. `sqlite3_bind_parameter_index` returns 0) throws
`Error` with `SQLITE_ERROR` and leaves the statement's bindings exactly as
they were; with a resolvable name it applies precisely one binding of the
value at the engine-resolved position. -/
theorem c6_bind_unknown_name {α : Type} (s : NamedStmt α) (name : String) (v : α) :
    (s.names.lookup name = none → bindNamed s name v = (some SQLITE_ERROR, s))
    ∧ (bind_parameter_index s name = 0 → bindNamed s name v = (some SQLITE_ERROR, s))
    ∧ (∀ n : Nat, bind_parameter_index s name = n → n ≠ 0 →
        bindNamed s name v = (none, ⟨s.names, (n, v) :: s.bound⟩)) := by
  refine ⟨?_, ?_, ?_⟩
  · intro h
    simp [bindNamed, bind_parameter_index, h]
  · intro h
    simp [bindNamed, h]
  · intro n hn hnz
    simp [bindNamed, hn, hnz]

theorem c6_bind_unknown_name_witness :
    bindNamed (⟨[(":a", 1)], []⟩ : NamedStmt Int) ":b" 7
        = (some SQLITE_ERROR, ⟨[(":a", 1)], []⟩)
    ∧ bindNamed (⟨[(":a", 1)], []⟩ : NamedStmt Int) ":a" 7
        = (none, ⟨[(":a", 1)], [(1, 7)]⟩) := by
  have h1 := (c6_bind_unknown_name (⟨[(":a", 1)], []⟩ : NamedStmt Int) ":b" 7).1 (by decide)
  have h2 := (c6_bind_unknown_name (⟨[(":a", 1)], []⟩ : NamedStmt Int) ":a" 7).2.2 1
      (by decide) (by decide)
  exact ⟨h1, h2⟩

/-- C7: `Value::as_text` returns empty text when the engine hands back no
data pointer; for Text and Blob cells it returns exactly the buffer of the
engine-reported byte length (embedded zero bytes preserved, so text written
and read back through this path is byte-identical); for every other kind it
returns the textual coercion truncated at the first zero byte. -/
theorem c7_as_text_byte_exact (c : Cell) :
    (c.data = none → as_text c = [])
    ∧ (∀ bs : List Nat, c.data = some bs →
        c.kind = Kind.text ∨ c.kind = Kind.blob →
        as_text c = bs ∧ (as_text c).length = Cell.columnBytes c)
    ∧ (∀ bs : List Nat, c.data = some bs →
        c.kind ≠ Kind.text → c.kind ≠ Kind.blob →
        as_text c = ntString bs) := by
  refine ⟨?_, ?_, ?_⟩
  · intro h
    simp [as_text, h]
  · intro bs h hk
    have hx : as_text c = bs := by
      rcases hk with hk | hk <;> simp [as_text, h, hk]
    exact ⟨hx, by simp [hx, Cell.columnBytes, h]⟩
  · intro bs h h1 h2
    simp [as_text, h, h1, h2]

theorem c7_as_text_byte_exact_witness :
    as_text ⟨Kind.text, some [104, 0, 105]⟩ = [104, 0, 105]
    ∧ as_text ⟨Kind.integer, some [52, 0, 53]⟩ = [52]
    ∧ as_text ⟨Kind.null, none⟩ = [] := by
  have h1 := (c7_as_text_byte_exact ⟨Kind.text, some [104, 0, 105]⟩).2.1
      [104, 0, 105] rfl (Or.inl rfl)
  have h2 := (c7_as_text_byte_exact ⟨Kind.integer, some [52, 0, 53]⟩).2.2
      [52, 0, 53] rfl (by decide) (by decide)
  have h3 := (c7_as_text_byte_exact ⟨Kind.null, none⟩).1 rfl
  exact ⟨h1.1, h2.trans (by decide), h3⟩

end Sqlitexx
